import Mathlib

/-!
Verification of the PCA9685 Home Assistant integration driver core.

This file gives a shallow embedding, in Lean, of the parts of the source that
the specification talks about:

* `custom_components/pca9685/pca_driver.py` — the `PCA9685Driver` class:
  register constants, range checking, byte splitting, PWM channel writes,
  frequency/prescale conversion and the sleep → write-prescale → wake sequence.
* `custom_components/pca9685/number.py` — `PwmNumber.async_set_native_value`:
  clamping, optional inversion, normalization to the 0..4095 PWM range.
* `custom_components/pca9685/light.py` — the transition engine of
  `PwmSimpleLed` and `PwmRgbwLed` (`_async_start_transition`,
  `_async_step_transition`).
* `custom_components/pca9685/config_flow.py` — the constraint content of the
  number subentry schema (`_generate_schema_number`).

Python `int`s are embedded as `ℤ`; physical register bytes (always validated
to 0..255 before being stored) as `ℕ`; Python `float`s as `ℚ`.  Python's
`round` rounds halves to even, which on `ℚ` is `round_half_even` below; for
the driver's frequency formulas the argument of `round` is never a half
integer (`25000000 / (4096 * f) = k + 1/2` would force
`4096 * f * (2 * k + 1) = 50000000`, impossible since `4096 ∤ 50000000`), and
the float quotient is far closer to the exact rational than to any half
integer, so `round` on the exact rational is a faithful model there.
The I2C bus is modelled as a register file together with a trace of the
single-byte read/write transactions issued to it.
-/

/-- A single transaction on the I2C bus: a one-byte register read, or a
one-byte register write (the byte is validated to 0..255 before the bus is
touched, so it is stored as `ℕ`). -/
inductive BusOp
  | read : ℤ → BusOp
  | write : ℤ → ℕ → BusOp
deriving DecidableEq

/-- The state of the bus as seen by one device: the register file of the
device and the trace of transactions issued so far. -/
structure BusState where
  regs : ℤ → ℕ
  trace : List BusOp

/-- A fresh bus whose registers all read as zero (this matches the driver's
`SIMULATE` mode, in which `read` returns 0). -/
def init_bus : BusState where
  regs := fun _ => 0
  trace := []

/-- Appending a write transaction: used to state what the driver operations
do to the bus. -/
def write_byte_state (s : BusState) (reg : ℤ) (b : ℕ) : BusState where
  regs := Function.update s.regs reg b
  trace := s.trace ++ [BusOp.write reg b]

/-- Appending a read transaction. -/
def read_byte_state (s : BusState) (reg : ℤ) : BusState where
  regs := s.regs
  trace := s.trace ++ [BusOp.read reg]

namespace PCA9685Driver

/-- Register addresses of the PCA9685 (class `Registers` in pca_driver.py). -/
def Registers.MODE_1 : ℤ := 0x00

/-- MODE_2 register address. -/
def Registers.MODE_2 : ℤ := 0x01

/-- LED0 ON low byte: start of the per-channel register strip. -/
def Registers.LED_STRIP_START : ℤ := 0x06

/-- PRE_SCALE register address. -/
def Registers.PRE_SCALE : ℤ := 0xFE

/-- Bit positions in the MODE_1 register (class `Mode1` in pca_driver.py). -/
def Mode1.SLEEP : ℕ := 4

/-- RESTART bit position. -/
def Mode1.RESTART : ℕ := 7

/-- Modelled from the spec: `const.py` as packaged here does not contain the
definition of `CONST_PWM_FREQ_MIN`, although `pca_driver.py` imports it; the
spec fixes the valid frequency range as 24..1526 Hz ("e.g. 24–1526 Hz,
matching PCA9685 prescale limits"). -/
def CONST_PWM_FREQ_MIN : ℤ := 24

/-- Modelled from the spec: the upper bound of the valid frequency range,
1526 Hz (see `CONST_PWM_FREQ_MIN`). -/
def CONST_PWM_FREQ_MAX : ℤ := 1526

/-- The oscillator clock constant, 25 MHz (`self.__oscillator_clock`). -/
def oscillator_clock : ℤ := 25000000

/-- Source `value_low(val) = val & 0xFF` (pca_driver.py line 52).  It is applied to
values already validated to be nonnegative, so it is stated on `ℕ`. -/
def value_low (val : ℕ) : ℕ := val &&& 0xFF

/-- Source `value_high(val) = (val >> 8) & 0xFF` (pca_driver.py line 57). -/
def value_high (val : ℕ) : ℕ := (val >>> 8) &&& 0xFF

/-- The `ranges` mapping of `PCA9685Driver` (pca_driver.py lines 65-72). -/
def ranges : String → Option (ℤ × ℤ)
  | "pwm_frequency" => some (CONST_PWM_FREQ_MIN, CONST_PWM_FREQ_MAX)
  | "led_number" => some (0, 15)
  | "led_value" => some (0, 4095)
  | "register_value" => some (0, 255)
  | _ => none

/-- Method `__check_range` (pca_driver.py lines 145-152): `none` when the value is
accepted, `some message` when a `PCA9685Error` is raised.  A missing key
would raise `KeyError` in Python. -/
def check_range (option : String) (value : ℤ) : Option String :=
  match ranges option with
  | Option.none => some ("KeyError: " ++ option)
  | some r =>
    if value < r.1 then
      some (option ++ " must be greater than " ++ toString r.1 ++ ", got " ++ toString value)
    else if value > r.2 then
      some (option ++ " must be less than " ++ toString r.2 ++ ", got " ++ toString value)
    else none

/-- Method `calc_led_register(led_num)` (pca_driver.py lines 136-143):
`LED_STRIP_START + 2 + led_num * 4`, the OFF-low register of the channel. -/
def calc_led_register (led_num : ℤ) : ℤ :=
  Registers.LED_STRIP_START + 2 + led_num * 4

/-- Method `write(reg, value)` (pca_driver.py lines 189-200): range-check the byte,
then issue a single-byte write on the bus.  An error carries the bus state at
the moment the exception is raised, so "no bus I/O happened" is visible. -/
def write (reg : ℤ) (value : ℤ) (s : BusState) : Except (String × BusState) BusState :=
  match check_range "register_value" value with
  | some e => Except.error (e, s)
  | none => Except.ok (write_byte_state s reg value.toNat)

/-- Method `read(reg)` (pca_driver.py lines 202-210): a single-byte read. -/
def read (reg : ℤ) (s : BusState) : ℕ × BusState :=
  (s.regs reg, read_byte_state s reg)

/-- The `mode_1` property (pca_driver.py lines 121-124): read MODE_1. -/
def mode_1 (s : BusState) : ℕ × BusState :=
  read Registers.MODE_1 s

/-- Method `set_pwm(led_num, value)` (pca_driver.py lines 154-166).  The two checks
run before any bus I/O; on success the low byte and then the high byte of the
value are written to the channel's OFF register pair.  The checks guarantee
`0 ≤ value`, so viewing the Python int as `ℕ` via `toNat` is exact. -/
def set_pwm (led_num : ℤ) (value : ℤ) (s : BusState) : Except (String × BusState) BusState :=
  match check_range "led_number" led_num with
  | some e => Except.error (e, s)
  | none =>
    match check_range "led_value" value with
    | some e => Except.error (e, s)
    | none =>
      let register_low := calc_led_register led_num
      match write register_low ((value_low value.toNat : ℕ) : ℤ) s with
      | Except.error e => Except.error e
      | Except.ok s1 => write (register_low + 1) ((value_high value.toNat : ℕ) : ℤ) s1

/-- Method `get_pwm(led_num)` (pca_driver.py lines 173-177), via `__get_led_value`:
read low and high byte and return `low + high * 256`. -/
def get_pwm (led_num : ℤ) (s : BusState) : Except (String × BusState) (ℕ × BusState) :=
  match check_range "led_number" led_num with
  | some e => Except.error (e, s)
  | none =>
    let register_low := calc_led_register led_num
    let low := read register_low s
    let high := read (register_low + 1) low.2
    Except.ok (low.1 + high.1 * 256, high.2)

/-- Method `sleep()` (pca_driver.py lines 179-182): read MODE_1 and write it back
with the SLEEP bit set (`self.mode_1 | (1 << Mode1.SLEEP)`). -/
def sleep (s : BusState) : Except (String × BusState) BusState :=
  let m := mode_1 s
  write Registers.MODE_1 ((m.1 ||| (1 <<< Mode1.SLEEP) : ℕ) : ℤ) m.2

/-- Method `wake()` (pca_driver.py lines 184-187): read MODE_1 and write it back
with the SLEEP bit cleared (`self.mode_1 & (255 - (1 << Mode1.SLEEP))`). -/
def wake (s : BusState) : Except (String × BusState) BusState :=
  let m := mode_1 s
  write Registers.MODE_1 ((m.1 &&& (255 - (1 <<< Mode1.SLEEP)) : ℕ) : ℤ) m.2

/-- Method `calc_pre_scale(frequency)` (pca_driver.py lines 212-220):
`int(round(oscillator_clock / (4096.0 * frequency)) - 1)`. -/
def calc_pre_scale (frequency : ℤ) : ℤ :=
  round ((oscillator_clock : ℚ) / (4096 * (frequency : ℚ))) - 1

/-- Method `calc_frequency(prescale)` (pca_driver.py lines 235-243):
`round(oscillator_clock / ((prescale + 1) * 4096.0))`. -/
def calc_frequency (prescale : ℤ) : ℤ :=
  round ((oscillator_clock : ℚ) / (((prescale : ℚ) + 1) * 4096))

/-- Method `set_pwm_frequency(value)` (pca_driver.py lines 222-233): range-check the
frequency, compute the prescale, then sleep → write PRE_SCALE → wake. -/
def set_pwm_frequency (value : ℤ) (s : BusState) : Except (String × BusState) BusState :=
  match check_range "pwm_frequency" value with
  | some e => Except.error (e, s)
  | none =>
    let reg_val := calc_pre_scale value
    match sleep s with
    | Except.error e => Except.error e
    | Except.ok s1 =>
      match write Registers.PRE_SCALE reg_val s1 with
      | Except.error e => Except.error e
      | Except.ok s2 => wake s2

/-- Method `get_pwm_frequency()` (pca_driver.py lines 245-247). -/
def get_pwm_frequency (s : BusState) : ℤ × BusState :=
  let r := read Registers.PRE_SCALE s
  (calc_frequency (r.1 : ℤ), r.2)

/-- The `i2c_bus` argument of `PCA9685Driver.__init__`: `None`, an `SMBus`
instance, an `int` bus number, or a `str` device path. -/
inductive I2cBusArg
  | none
  | smbus
  | int (n : ℤ)
  | str (s : String)

/-- Result of `__init__`: the recorded bus number and device address. -/
structure InitResult where
  busnr : Option ℤ
  address : ℤ
deriving DecidableEq

/-- Method `get_i2c_bus_number_from_string` (pca_driver.py lines 112-114):
`int(i2c_bus.lower().replace("/dev/i2c-", ""))`; `Option.none` models the
`ValueError` Python's `int()` raises on a non-numeric string. -/
def get_i2c_bus_number_from_string (i2c_bus : String) : Option ℤ :=
  ((i2c_bus.toLower).replace "/dev/i2c-" "").toInt?

/-- Constructor `PCA9685Driver.__init__` (pca_driver.py lines 74-103).
`dev_i2c_busses` is the list of bus numbers found by globbing `/dev/i2c-*`
(`get_i2c_bus_numbers`).  Crucially, line 83 of the source is the annotated
assignment `i2c_bus: SMBus | None = None` *inside the body*, which rebinds
the `i2c_bus` parameter to `None` before it is ever inspected; the embedding
reproduces this rebinding. -/
def driver_init (address : ℤ) (i2c_bus_arg : I2cBusArg) (dev_i2c_busses : List ℤ) :
    Except String InitResult :=
  -- line 82: `self.__busnr = None`
  let busnr : Option ℤ := Option.none
  -- line 83: `i2c_bus: SMBus | None = None` — the parameter is overwritten
  let i2c_bus : I2cBusArg := I2cBusArg.none
  -- lines 85-92: `if i2c_bus is None: ...` (autodetect the first bus)
  let step1 : Except String (Option ℤ) :=
    match i2c_bus with
    | I2cBusArg.none =>
      match dev_i2c_busses with
      | [] => Except.error "Cannot determine I2C bus number"
      | b :: _ => Except.ok (some b)
    | _ => Except.ok busnr
  match step1 with
  | Except.error e => Except.error e
  | Except.ok busnr =>
    -- lines 93-96: `if isinstance(i2c_bus, int): ...`
    let busnr := match i2c_bus with
      | I2cBusArg.int n => some n
      | _ => busnr
    -- lines 97-100: `if isinstance(i2c_bus, str): ...`
    let busnr := match i2c_bus with
      | I2cBusArg.str p => get_i2c_bus_number_from_string p
      | _ => busnr
    Except.ok { busnr := busnr, address := address }

end PCA9685Driver

/-- Truncation toward zero, the behaviour of Python's `int()` on a float. -/
def int_trunc (x : ℚ) : ℤ := if 0 ≤ x then ⌊x⌋ else ⌈x⌉

/-- Python's `round` on a float: round to nearest, halves to even.  On a half
integer `k + 1/2` the nearest even integer
is `2 * round ((k + 1/2) / 2)`; elsewhere it is the usual nearest integer. -/
def round_half_even (x : ℚ) : ℤ :=
  if Int.fract x = 1 / 2 then 2 * round (x / 2) else round x

/-- The configuration of one `PwmNumber` entity (number.py): the subentry
fields used by `async_set_native_value`.  Numeric configuration values are
Python floats, embedded as `ℚ`. -/
structure NumberConfig where
  minimum : ℚ
  maximum : ℚ
  step : ℚ
  invert : Bool
  normalize_lower : ℚ
  normalize_upper : ℚ
  pin : ℤ
deriving DecidableEq

/-- The constraint content of the number subentry schema
(`_generate_schema_number`, config_flow.py lines 106-148): the only numeric
constraint among its voluptuous fields is `min=0` on the step selector; in
particular nothing relates `normalize_lower` to `normalize_upper`. -/
def number_schema_accepts (c : NumberConfig) : Bool := decide (0 ≤ c.step)

/-- Method `PwmNumber.async_set_native_value` (number.py lines 133-158): clamp the
value to `[minimum, maximum]`, optionally invert against `normalize_upper`,
shift by `normalize_lower`, scale to 0..4095, clamp, and hand the result to
`set_pwm`; the entity then stores the clamped value as its native value.
Python raises `ZeroDivisionError` when `normalize_upper == normalize_lower`.
On success the result is the stored native value and the new bus state. -/
def async_set_native_value (c : NumberConfig) (value : ℚ) (s : BusState) :
    Except String (ℚ × BusState) :=
  let value := max value c.minimum
  let value := min value c.maximum
  let used_value := if c.invert then c.normalize_upper - value else value
  let used_value := used_value - c.normalize_lower
  let range_pwm : ℤ := 4095
  let range_value := c.normalize_upper - c.normalize_lower
  if range_value = 0 then Except.error "ZeroDivisionError"
  else
    let scaled_value := round_half_even (used_value / range_value * (range_pwm : ℚ))
    let scaled_value := min range_pwm scaled_value
    let scaled_value := max 0 scaled_value
    match PCA9685Driver.set_pwm c.pin scaled_value s with
    | Except.error e => Except.error e.1
    | Except.ok s1 => Except.ok (value, s1)

/-- The PWM value that `async_set_native_value` hands to `set_pwm`, written
out as a standalone function of the configuration and the input value. -/
def scaled_pwm_value (c : NumberConfig) (value : ℚ) : ℤ :=
  let value := max value c.minimum
  let value := min value c.maximum
  let used_value := if c.invert then c.normalize_upper - value else value
  let used_value := used_value - c.normalize_lower
  max 0 (min 4095 (round_half_even
    (used_value / (c.normalize_upper - c.normalize_lower) * ((4095 : ℤ) : ℚ))))

/-- Extract the transaction trace from a result of
`async_set_native_value` (empty when the call raised). -/
def run_trace : Except String (ℚ × BusState) → List BusOp
  | Except.error _ => []
  | Except.ok r => r.2.trace

/-- The transition fields of a `PwmSimpleLed` (light.py lines 93-128).
Timestamps are seconds as `ℚ`; `transition_lister` records whether the
periodic callback is currently scheduled. -/
structure SimpleLedTransition where
  pin : ℤ
  transition_start : ℚ
  transition_end : ℚ
  transition_begin_brightness : ℤ
  transition_end_brightness : ℤ
  transition_lister : Bool
deriving DecidableEq

/-- Method `PwmSimpleLed._async_start_transition` (light.py lines 177-193).
`current` is the live driver value read via `get_pwm(pin)` and `now` the
current time.  Returns the updated state and whether a periodic callback was
scheduled (the previous callback, if any, is cancelled first). -/
def start_transition (st : SimpleLedTransition) (brightness : ℤ) (now duration : ℚ)
    (current : ℤ) : SimpleLedTransition × Bool :=
  let st := { st with transition_begin_brightness := current }
  if st.transition_begin_brightness ≠ brightness then
    ({ st with
        transition_start := now
        transition_end := now + duration
        transition_end_brightness := brightness
        transition_lister := true }, true)
  else (st, false)

/-- Method `PwmSimpleLed._async_step_transition` (light.py lines 195-224): one tick
of the periodic callback at time `now`.  Returns the `set_pwm` calls
`(pin, value)` issued during the tick and whether the periodic callback was
cancelled.  Past the end time the stored end brightness is written and the
callback cancelled (if scheduled); otherwise the linear interpolation,
truncated by Python's `int()`, is written.  When `start == end` the `else`
branch divides by zero. -/
def step_transition (st : SimpleLedTransition) (now : ℚ) :
    Except String (List (ℤ × ℤ) × Bool) :=
  if now > st.transition_end then
    Except.ok ([(st.pin, st.transition_end_brightness)], st.transition_lister)
  else
    let elapsed := now - st.transition_start
    let total := st.transition_end - st.transition_start
    if total = 0 then Except.error "ZeroDivisionError"
    else
      Except.ok ([(st.pin,
        int_trunc ((st.transition_begin_brightness : ℚ) +
          ((st.transition_end_brightness : ℚ) - (st.transition_begin_brightness : ℚ))
            * elapsed / total))], false)

/-- The transition fields of a `PwmRgbwLed` (light.py lines 227-256):
3 or 4 pins with per-channel begin and end brightness lists. -/
structure RgbwLedTransition where
  pins : List ℤ
  transition_start : ℚ
  transition_end : ℚ
  transition_begin_brightness : List ℤ
  transition_end_brightness : List ℤ
  transition_lister : Bool
deriving DecidableEq

/-- Method `PwmRgbwLed._async_step_transition` (light.py lines 341-372).  The source
loops `for i in range(len(self._pins))` indexing all three lists at `i`; the
embedding pairs the lists with `zip`, which agrees with the source whenever
the lists have equal length (the constructor and `_async_start_transition`
always fill them pin-for-pin). -/
def rgbw_step_transition (st : RgbwLedTransition) (now : ℚ) :
    Except String (List (ℤ × ℤ) × Bool) :=
  if now > st.transition_end then
    Except.ok (st.pins.zip st.transition_end_brightness, st.transition_lister)
  else
    let elapsed := now - st.transition_start
    let total := st.transition_end - st.transition_start
    if total = 0 then Except.error "ZeroDivisionError"
    else
      Except.ok (((st.pins.zip
          (st.transition_begin_brightness.zip st.transition_end_brightness)).map
        fun pbe => (pbe.1,
          int_trunc ((pbe.2.1 : ℚ) + ((pbe.2.2 : ℚ) - (pbe.2.1 : ℚ)) * elapsed / total))),
        false)

/-- Integer-division form of `calc_pre_scale`. -/
def calc_pre_scale_int (f : ℤ) : ℤ :=
  (2 * PCA9685Driver.oscillator_clock + 4096 * f) / (2 * (4096 * f)) - 1

/-- Integer-division form of `calc_frequency`. -/
def calc_frequency_int (p : ℤ) : ℤ :=
  (2 * PCA9685Driver.oscillator_clock + (p + 1) * 4096) / (2 * ((p + 1) * 4096))

/-- One round-trip test at frequency `f`, in kernel-computable form. -/
def roundtrip_ok (f : ℤ) : Bool :=
  decide (0 < calc_pre_scale_int f + 1) &&
    decide ((calc_frequency_int (calc_pre_scale_int f) - f).natAbs ≤ 1)

/-- Check `roundtrip_ok` for all frequencies `24 + k`, `k < n`. -/
def roundtrip_check : ℕ → Bool
  | 0 => true
  | n + 1 => roundtrip_ok (24 + n) && roundtrip_check n

/-- The degenerate configuration of C5: `normalize_lower = normalize_upper`. -/
def degenerate_number_config : NumberConfig where
  minimum := 0
  maximum := 100
  step := 1
  invert := false
  normalize_lower := 50
  normalize_upper := 50
  pin := 0

/-- A concrete running transition used as the C9 witness. -/
def sample_simple_transition : SimpleLedTransition where
  pin := 0
  transition_start := 0
  transition_end := 1
  transition_begin_brightness := 0
  transition_end_brightness := 4095
  transition_lister := true

/-- A concrete running multi-channel transition used as the C9 witness. -/
def sample_rgbw_transition : RgbwLedTransition where
  pins := [1, 2, 3]
  transition_start := 0
  transition_end := 1
  transition_begin_brightness := [0, 0, 0]
  transition_end_brightness := [100, 200, 300]
  transition_lister := true

/-- A well-formed sample configuration used as the C10 witness. -/
def sample_number_config : NumberConfig where
  minimum := 0
  maximum := 100
  step := 1
  invert := false
  normalize_lower := 0
  normalize_upper := 100
  pin := 3

/-- A number configuration with `normalize_lower = minimum` and
`normalize_upper = maximum` — the shape used in the endpoint claims. -/
def c4_number_config (mn mx : ℚ) (inv : Bool) (pin : ℤ) : NumberConfig where
  minimum := mn
  maximum := mx
  step := 1
  invert := inv
  normalize_lower := mn
  normalize_upper := mx
  pin := pin

/-! ### Arithmetic bridge: `round` on exact rationals versus integer division

Rational arithmetic does not reduce inside the kernel, so the frequency
formulas are related once and for all to integer division, and concrete
evaluations go through the integer forms. -/

lemma round_div_int (a b : ℤ) (hb : 0 < b) :
    round ((a : ℚ) / (b : ℚ)) = (2 * a + b) / (2 * b) := by
  rw [round_eq]
  have hbn : ((2 * b).toNat : ℤ) = 2 * b := Int.toNat_of_nonneg (by omega)
  have h : (a : ℚ) / b + 1 / 2 = ((2 * a + b : ℤ) : ℚ) / (((2 * b).toNat : ℕ) : ℚ) := by
    have h2 : (((2 * b).toNat : ℕ) : ℚ) = ((2 * b : ℤ) : ℚ) := by exact_mod_cast hbn
    rw [h2]
    have hb0 : (b : ℚ) ≠ 0 := Int.cast_ne_zero.mpr hb.ne'
    field_simp
    ring
  rw [h, Rat.floor_intCast_div_natCast, hbn]

lemma calc_pre_scale_eq (f : ℤ) (hf : 0 < f) :
    PCA9685Driver.calc_pre_scale f = calc_pre_scale_int f := by
  unfold PCA9685Driver.calc_pre_scale calc_pre_scale_int
  rw [show (4096 * (f : ℚ)) = ((4096 * f : ℤ) : ℚ) by push_cast; ring,
    show (PCA9685Driver.oscillator_clock : ℚ) = ((PCA9685Driver.oscillator_clock : ℤ) : ℚ) from rfl,
    round_div_int PCA9685Driver.oscillator_clock (4096 * f) (by omega)]

lemma calc_frequency_eq (p : ℤ) (hp : 0 < p + 1) :
    PCA9685Driver.calc_frequency p = calc_frequency_int p := by
  unfold PCA9685Driver.calc_frequency calc_frequency_int
  rw [show (((p : ℚ) + 1) * 4096) = (((p + 1) * 4096 : ℤ) : ℚ) by push_cast; ring,
    show (PCA9685Driver.oscillator_clock : ℚ) = ((PCA9685Driver.oscillator_clock : ℤ) : ℚ) from rfl,
    round_div_int PCA9685Driver.oscillator_clock ((p + 1) * 4096) (by positivity)]

lemma roundtrip_check_123 : roundtrip_check 123 = true := by decide

lemma roundtrip_check_sound :
    ∀ n, roundtrip_check n = true → ∀ k : ℕ, k < n → roundtrip_ok (24 + (k : ℤ)) = true := by
  intro n
  induction n with
  | zero => intro _ k hk; omega
  | succ m ih =>
    intro h k hk
    rw [roundtrip_check, Bool.and_eq_true] at h
    rcases Nat.lt_succ_iff_lt_or_eq.mp hk with h' | h'
    · exact ih h.2 k h'
    · subst h'; exact_mod_cast h.1

lemma calc_pre_scale_bounds (f : ℤ) (h1 : 24 ≤ f) (h2 : f ≤ 1526) :
    0 ≤ PCA9685Driver.calc_pre_scale f ∧ PCA9685Driver.calc_pre_scale f ≤ 255 := by
  unfold PCA9685Driver.calc_pre_scale
  rw [round_eq]
  have hfq : (0 : ℚ) < (f : ℚ) := by exact_mod_cast (by omega : (0 : ℤ) < f)
  have hfle : (f : ℚ) ≤ 1526 := by exact_mod_cast h2
  have hfge : (24 : ℚ) ≤ (f : ℚ) := by exact_mod_cast h1
  have hx_low : (7 / 2 : ℚ) ≤ (PCA9685Driver.oscillator_clock : ℚ) / (4096 * f) := by
    rw [le_div_iff₀ (by positivity)]
    unfold PCA9685Driver.oscillator_clock
    push_cast
    nlinarith
  have hx_high : (PCA9685Driver.oscillator_clock : ℚ) / (4096 * f) < 509 / 2 := by
    rw [div_lt_iff₀ (by positivity)]
    unfold PCA9685Driver.oscillator_clock
    push_cast
    nlinarith
  constructor
  · have h4 : (4 : ℤ) ≤ ⌊(PCA9685Driver.oscillator_clock : ℚ) / (4096 * f) + 1 / 2⌋ :=
      Int.le_floor.mpr (by push_cast; linarith)
    omega
  · have h255 : ⌊(PCA9685Driver.oscillator_clock : ℚ) / (4096 * f) + 1 / 2⌋ < 255 :=
      Int.floor_lt.mpr (by push_cast; linarith)
    omega

/-! ### Evaluation lemmas for the driver operations -/

lemma check_range_none (o : String) (lo hi v : ℤ)
    (hr : PCA9685Driver.ranges o = some (lo, hi)) (h1 : lo ≤ v) (h2 : v ≤ hi) :
    PCA9685Driver.check_range o v = none := by
  unfold PCA9685Driver.check_range
  rw [hr]
  dsimp only
  rw [if_neg (by omega), if_neg (by omega)]

lemma check_range_some (o : String) (lo hi v : ℤ)
    (hr : PCA9685Driver.ranges o = some (lo, hi)) (h : v < lo ∨ hi < v) :
    ∃ e, PCA9685Driver.check_range o v = some e := by
  unfold PCA9685Driver.check_range
  rw [hr]
  dsimp only
  by_cases h1 : v < lo
  · exact ⟨_, by rw [if_pos h1]⟩
  · have h2 : v > hi := by omega
    exact ⟨_, by rw [if_neg h1, if_pos h2]⟩

lemma value_low_zero : PCA9685Driver.value_low 0 = 0 := rfl

lemma value_high_zero : PCA9685Driver.value_high 0 = 0 := rfl

lemma value_low_4095 : PCA9685Driver.value_low 4095 = 255 := rfl

lemma value_high_4095 : PCA9685Driver.value_high 4095 = 15 := rfl

lemma value_low_le (v : ℕ) : PCA9685Driver.value_low v ≤ 255 :=
  Nat.and_le_right

lemma value_high_le (v : ℕ) : PCA9685Driver.value_high v ≤ 255 :=
  Nat.and_le_right

lemma write_ok (reg v : ℤ) (s : BusState) (h0 : 0 ≤ v) (h255 : v ≤ 255) :
    PCA9685Driver.write reg v s = Except.ok (write_byte_state s reg v.toNat) := by
  unfold PCA9685Driver.write
  rw [check_range_none "register_value" 0 255 v rfl h0 h255]

lemma set_pwm_ok (s : BusState) (c v : ℤ) (h0 : 0 ≤ c) (h15 : c ≤ 15)
    (hv0 : 0 ≤ v) (hv : v ≤ 4095) :
    PCA9685Driver.set_pwm c v s = Except.ok
      (write_byte_state
        (write_byte_state s (PCA9685Driver.calc_led_register c)
          (PCA9685Driver.value_low v.toNat))
        (PCA9685Driver.calc_led_register c + 1) (PCA9685Driver.value_high v.toNat)) := by
  unfold PCA9685Driver.set_pwm
  rw [check_range_none "led_number" 0 15 c rfl h0 h15]
  dsimp only
  rw [check_range_none "led_value" 0 4095 v rfl hv0 hv]
  dsimp only
  rw [write_ok _ _ _ (by positivity) (by exact_mod_cast value_low_le v.toNat)]
  dsimp only
  rw [write_ok _ _ _ (by positivity) (by exact_mod_cast value_high_le v.toNat)]
  simp [Int.toNat_natCast]

/-- Effect of the sleep/wake pair on the MODE_1 byte: OR-ing in bit 4 and
then AND-ing with the inverted mask clears bit 4 and leaves every other bit
as it was. -/
lemma mode1_or_and_bits (m : ℕ) (hm : m ≤ 255) :
    (((m ||| (1 <<< PCA9685Driver.Mode1.SLEEP)) &&&
        (255 - (1 <<< PCA9685Driver.Mode1.SLEEP))).testBit PCA9685Driver.Mode1.SLEEP
      = false) ∧
    ∀ i, i ≠ PCA9685Driver.Mode1.SLEEP →
      ((m ||| (1 <<< PCA9685Driver.Mode1.SLEEP)) &&&
        (255 - (1 <<< PCA9685Driver.Mode1.SLEEP))).testBit i = m.testBit i := by
  show ((m ||| 16) &&& 239).testBit 4 = false ∧
    ∀ i, i ≠ 4 → ((m ||| 16) &&& 239).testBit i = m.testBit i
  constructor
  · rw [Nat.testBit_land, show (239 : ℕ).testBit 4 = false by decide]
    simp
  · intro i hi
    rw [Nat.testBit_land, Nat.testBit_lor]
    by_cases h8 : i < 8
    · interval_cases i <;>
        simp_all [show (16 : ℕ).testBit 0 = false by decide,
          show (16 : ℕ).testBit 1 = false by decide,
          show (16 : ℕ).testBit 2 = false by decide,
          show (16 : ℕ).testBit 3 = false by decide,
          show (16 : ℕ).testBit 5 = false by decide,
          show (16 : ℕ).testBit 6 = false by decide,
          show (16 : ℕ).testBit 7 = false by decide,
          show (239 : ℕ).testBit 0 = true by decide,
          show (239 : ℕ).testBit 1 = true by decide,
          show (239 : ℕ).testBit 2 = true by decide,
          show (239 : ℕ).testBit 3 = true by decide,
          show (239 : ℕ).testBit 5 = true by decide,
          show (239 : ℕ).testBit 6 = true by decide,
          show (239 : ℕ).testBit 7 = true by decide]
    · have hpow : (2 : ℕ) ^ 8 ≤ 2 ^ i := Nat.pow_le_pow_right (by norm_num) (by omega)
      have hmb : m.testBit i = false := Nat.testBit_lt_two_pow (by omega)
      have h16 : (16 : ℕ).testBit i = false := Nat.testBit_lt_two_pow (by omega)
      have h239 : (239 : ℕ).testBit i = false := Nat.testBit_lt_two_pow (by omega)
      simp [hmb, h16, h239]

lemma round_half_even_intCast (n : ℤ) : round_half_even ((n : ℚ)) = n := by
  unfold round_half_even
  rw [Int.fract_intCast]
  norm_num

lemma round_half_even_zero : round_half_even (0 : ℚ) = 0 := by
  simpa using round_half_even_intCast 0

lemma scaled_pwm_value_nonneg (c : NumberConfig) (v : ℚ) : 0 ≤ scaled_pwm_value c v := by
  simp only [scaled_pwm_value]
  exact le_max_left _ _

lemma scaled_pwm_value_le (c : NumberConfig) (v : ℚ) : scaled_pwm_value c v ≤ 4095 := by
  simp only [scaled_pwm_value]
  exact max_le (by norm_num) (min_le_left _ _)

/-- Success shape of `async_set_native_value`: with non-degenerate
normalization bounds and a valid pin it stores the clamped value and issues
exactly the two byte writes of `set_pwm` with the scaled PWM value. -/
lemma async_set_native_value_ok (c : NumberConfig) (v : ℚ) (s : BusState)
    (hrange : ¬(c.normalize_upper - c.normalize_lower = 0))
    (h0 : 0 ≤ c.pin) (h15 : c.pin ≤ 15) :
    async_set_native_value c v s = Except.ok (min (max v c.minimum) c.maximum,
      write_byte_state
        (write_byte_state s (PCA9685Driver.calc_led_register c.pin)
          (PCA9685Driver.value_low (scaled_pwm_value c v).toNat))
        (PCA9685Driver.calc_led_register c.pin + 1)
        (PCA9685Driver.value_high (scaled_pwm_value c v).toNat)) := by
  simp only [async_set_native_value, scaled_pwm_value]
  rw [if_neg hrange]
  rw [set_pwm_ok s c.pin _ h0 h15 (le_max_left 0 _) (max_le (by norm_num) (min_le_left _ _))]

/-! ### Claim theorems -/

/-- C1 (amended): for every frequency `f` in `[24, 146]`, converting `f` to a
prescale with `calc_pre_scale` and back with `calc_frequency` yields a result
within 1 Hz of `f`.  (The claimed range `[24, 1526]` is too large: the
prescale quantisation step grows like `f² / 6104`, see the counterexample at
`f = 147`.) -/
theorem C1_roundtrip_within_one_on_24_146 :
    ∀ f : ℤ, 24 ≤ f → f ≤ 146 →
      |PCA9685Driver.calc_frequency (PCA9685Driver.calc_pre_scale f) - f| ≤ 1 := by
  intro f h1 h2
  have hk := roundtrip_check_sound 123 roundtrip_check_123 (f - 24).toNat (by omega)
  have hf24 : (24 : ℤ) + (((f - 24).toNat : ℕ) : ℤ) = f := by omega
  rw [hf24] at hk
  simp only [roundtrip_ok, Bool.and_eq_true, decide_eq_true_eq] at hk
  obtain ⟨hp, herr⟩ := hk
  rw [calc_pre_scale_eq f (by omega), calc_frequency_eq _ hp, Int.abs_eq_natAbs]
  exact_mod_cast herr

/-- C1 witness: the round-trip property at the concrete frequency 100 Hz. -/
theorem C1_roundtrip_witness :
    |PCA9685Driver.calc_frequency (PCA9685Driver.calc_pre_scale 100) - 100| ≤ 1 :=
  C1_roundtrip_within_one_on_24_146 100 (by norm_num) (by norm_num)

/-- C1 counterexample: 147 Hz lies in the claimed range `[24, 1526]`, but the
round-trip misses it by 2 Hz (prescale 40, frequency back 145 Hz). -/
theorem C1_roundtrip_fails_at_147 :
    (24 ≤ (147 : ℤ) ∧ (147 : ℤ) ≤ 1526) ∧
      ¬|PCA9685Driver.calc_frequency (PCA9685Driver.calc_pre_scale 147) - 147| ≤ 1 := by
  refine ⟨⟨by norm_num, by norm_num⟩, ?_⟩
  rw [calc_pre_scale_eq 147 (by norm_num), calc_frequency_eq _ (by decide)]
  decide

/-- C2: `__init__` discards an explicitly supplied integer bus number.  The
local annotated assignment on line 83 rebinds the `i2c_bus` parameter to
`None`, so the driver always autodetects: constructed with address `0x40`
and bus `1` on a system whose first detected bus is `0`, the driver records
`busnr = 0`, not `1`; in general the result never depends on the argument. -/
theorem C2_bus_argument_ignored :
    (PCA9685Driver.driver_init 64 (PCA9685Driver.I2cBusArg.int 1) [0]
        = Except.ok { busnr := some 0, address := 64 } ∧ some (0 : ℤ) ≠ some 1) ∧
    ∀ (a : ℤ) (arg : PCA9685Driver.I2cBusArg) (l : List ℤ),
      PCA9685Driver.driver_init a arg l
        = PCA9685Driver.driver_init a PCA9685Driver.I2cBusArg.none l := by
  exact ⟨⟨rfl, by decide⟩, fun a arg l => rfl⟩

/-- C3 (amended): `calc_pre_scale(200)` returns 30, not 29:
`25000000 / (4096 · 200) = 30.517…`, which rounds to 31, minus 1. -/
theorem C3_prescale_200_eq_30 : PCA9685Driver.calc_pre_scale 200 = 30 := by
  rw [calc_pre_scale_eq 200 (by norm_num)]
  decide

/-- C3 counterexample: the claimed value 29 is wrong. -/
theorem C3_prescale_200_ne_29 : PCA9685Driver.calc_pre_scale 200 ≠ 29 := by
  rw [calc_pre_scale_eq 200 (by norm_num)]
  decide

/-- C6: every out-of-range input (channel outside `[0,15]` or value outside
`[0,4095]` for `set_pwm`, frequency outside the configured range for
`set_pwm_frequency`, byte outside `[0,255]` for `write`) raises a range error
with the bus state unchanged — the error carries exactly the entry state, so
zero reads and zero writes were issued. -/
theorem C6_out_of_range_rejected_without_io :
    ∀ (s : BusState) (c v f b reg : ℤ),
      (((c < 0 ∨ 15 < c) ∨ (v < 0 ∨ 4095 < v)) →
        ∃ e, PCA9685Driver.set_pwm c v s = Except.error (e, s)) ∧
      ((f < PCA9685Driver.CONST_PWM_FREQ_MIN ∨ PCA9685Driver.CONST_PWM_FREQ_MAX < f) →
        ∃ e, PCA9685Driver.set_pwm_frequency f s = Except.error (e, s)) ∧
      ((b < 0 ∨ 255 < b) →
        ∃ e, PCA9685Driver.write reg b s = Except.error (e, s)) := by
  intro s c v f b reg
  refine ⟨?_, ?_, ?_⟩
  · rintro (hc | hv)
    · obtain ⟨e, he⟩ := check_range_some "led_number" 0 15 c rfl hc
      exact ⟨e, by unfold PCA9685Driver.set_pwm; rw [he]⟩
    · by_cases hc : c < 0 ∨ 15 < c
      · obtain ⟨e, he⟩ := check_range_some "led_number" 0 15 c rfl hc
        exact ⟨e, by unfold PCA9685Driver.set_pwm; rw [he]⟩
      · push_neg at hc
        have hcn : PCA9685Driver.check_range "led_number" c = none :=
          check_range_none _ 0 15 c rfl hc.1 hc.2
        obtain ⟨e, he⟩ := check_range_some "led_value" 0 4095 v rfl hv
        exact ⟨e, by unfold PCA9685Driver.set_pwm; rw [hcn]; dsimp only; rw [he]⟩
  · intro hf
    obtain ⟨e, he⟩ := check_range_some "pwm_frequency" _ _ f rfl hf
    exact ⟨e, by unfold PCA9685Driver.set_pwm_frequency; rw [he]⟩
  · intro hb
    obtain ⟨e, he⟩ := check_range_some "register_value" 0 255 b rfl hb
    exact ⟨e, by unfold PCA9685Driver.write; rw [he]⟩

/-- C6 witness: channel 16, frequency 2000 Hz and byte 256 are each rejected
on a fresh bus with the bus state unchanged. -/
theorem C6_out_of_range_witness :
    (∃ e, PCA9685Driver.set_pwm 16 0 init_bus = Except.error (e, init_bus)) ∧
    (∃ e, PCA9685Driver.set_pwm_frequency 2000 init_bus = Except.error (e, init_bus)) ∧
    (∃ e, PCA9685Driver.write 0 256 init_bus = Except.error (e, init_bus)) := by
  obtain ⟨h1, h2, h3⟩ := C6_out_of_range_rejected_without_io init_bus 16 0 2000 256 0
  exact ⟨h1 (Or.inl (Or.inr (by norm_num))), h2 (Or.inr (by decide)), h3 (Or.inr (by norm_num))⟩

/-- C8: for a channel `c ∈ [0,15]` and value `v ∈ [0,4095]`, `set_pwm`
issues exactly two byte writes, in order: `v & 0xFF` to register
`0x06 + 2 + 4c` and `(v >> 8) & 0xFF` to the next register; no other
register changes. -/
theorem C8_set_pwm_two_byte_writes :
    ∀ (s : BusState) (c v : ℤ), 0 ≤ c → c ≤ 15 → 0 ≤ v → v ≤ 4095 →
      ∃ s', PCA9685Driver.set_pwm c v s = Except.ok s' ∧
        s'.trace = s.trace ++
          [BusOp.write (PCA9685Driver.Registers.LED_STRIP_START + 2 + c * 4)
            (PCA9685Driver.value_low v.toNat),
          BusOp.write (PCA9685Driver.Registers.LED_STRIP_START + 2 + c * 4 + 1)
            (PCA9685Driver.value_high v.toNat)] ∧
        ∀ r : ℤ, r ≠ PCA9685Driver.Registers.LED_STRIP_START + 2 + c * 4 →
          r ≠ PCA9685Driver.Registers.LED_STRIP_START + 2 + c * 4 + 1 →
          s'.regs r = s.regs r := by
  intro s c v h0 h15 hv0 hv
  refine ⟨_, set_pwm_ok s c v h0 h15 hv0 hv, ?_, ?_⟩
  · simp [write_byte_state, PCA9685Driver.calc_led_register]
  · intro r hr1 hr2
    have hr1' : r ≠ PCA9685Driver.calc_led_register c := hr1
    have hr2' : r ≠ PCA9685Driver.calc_led_register c + 1 := hr2
    simp only [write_byte_state]
    rw [Function.update_noteq hr2', Function.update_noteq hr1']

/-- C8 witness: `set_pwm(0, 2048)` writes byte `0x00` to register `0x08` and
byte `0x08` to register `0x09`, and nothing else. -/
theorem C8_set_pwm_witness :
    ∃ s', PCA9685Driver.set_pwm 0 2048 init_bus = Except.ok s' ∧
      s'.trace = [BusOp.write 8 0, BusOp.write 9 8] ∧
      ∀ r : ℤ, r ≠ 8 → r ≠ 9 → s'.regs r = init_bus.regs r := by
  have h := C8_set_pwm_two_byte_writes init_bus 0 2048 (by norm_num) (by norm_num)
    (by norm_num) (by norm_num)
  simpa [PCA9685Driver.Registers.LED_STRIP_START, init_bus,
    PCA9685Driver.value_low, PCA9685Driver.value_high] using h

/-- C7: for every valid frequency, `set_pwm_frequency` performs exactly
sleep → write prescale → wake.  Sleep reads MODE_1 and writes it back with
bit 4 OR-ed in; wake reads MODE_1 and writes it back AND-ed with the
inverted mask; afterwards the SLEEP bit is clear and every other MODE_1 bit
holds its prior value. -/
theorem C7_set_frequency_sleep_write_wake :
    ∀ (s : BusState) (f : ℤ), 24 ≤ f → f ≤ 1526 →
      s.regs PCA9685Driver.Registers.MODE_1 ≤ 255 →
      ∃ s', PCA9685Driver.set_pwm_frequency f s = Except.ok s' ∧
        s'.trace = s.trace ++
          [BusOp.read PCA9685Driver.Registers.MODE_1,
          BusOp.write PCA9685Driver.Registers.MODE_1
            (s.regs PCA9685Driver.Registers.MODE_1 ||| (1 <<< PCA9685Driver.Mode1.SLEEP)),
          BusOp.write PCA9685Driver.Registers.PRE_SCALE
            (PCA9685Driver.calc_pre_scale f).toNat,
          BusOp.read PCA9685Driver.Registers.MODE_1,
          BusOp.write PCA9685Driver.Registers.MODE_1
            ((s.regs PCA9685Driver.Registers.MODE_1 ||| (1 <<< PCA9685Driver.Mode1.SLEEP)) &&&
              (255 - (1 <<< PCA9685Driver.Mode1.SLEEP)))] ∧
        (s'.regs PCA9685Driver.Registers.MODE_1).testBit PCA9685Driver.Mode1.SLEEP = false ∧
        ∀ i, i ≠ PCA9685Driver.Mode1.SLEEP →
          (s'.regs PCA9685Driver.Registers.MODE_1).testBit i
            = (s.regs PCA9685Driver.Registers.MODE_1).testBit i := by
  intro s f h1 h2 hm
  have hcheck : PCA9685Driver.check_range "pwm_frequency" f = none :=
    check_range_none _ PCA9685Driver.CONST_PWM_FREQ_MIN PCA9685Driver.CONST_PWM_FREQ_MAX f
      rfl h1 h2
  have hpre := calc_pre_scale_bounds f h1 h2
  have hor : s.regs PCA9685Driver.Registers.MODE_1 ||| (1 <<< PCA9685Driver.Mode1.SLEEP)
      < 2 ^ 8 :=
    Nat.or_lt_two_pow (by omega) (by decide)
  -- sleep succeeds
  have e1 : PCA9685Driver.sleep s = Except.ok
      (write_byte_state (read_byte_state s PCA9685Driver.Registers.MODE_1)
        PCA9685Driver.Registers.MODE_1
        (s.regs PCA9685Driver.Registers.MODE_1 ||| (1 <<< PCA9685Driver.Mode1.SLEEP))) := by
    unfold PCA9685Driver.sleep PCA9685Driver.mode_1 PCA9685Driver.read
    dsimp only
    rw [write_ok _ _ _ (by positivity) (by exact_mod_cast Nat.le_of_lt_succ (by
      simpa using hor))]
    simp [read_byte_state]
  -- the prescale write succeeds
  have e2 : PCA9685Driver.write PCA9685Driver.Registers.PRE_SCALE
      (PCA9685Driver.calc_pre_scale f)
      (write_byte_state (read_byte_state s PCA9685Driver.Registers.MODE_1)
        PCA9685Driver.Registers.MODE_1
        (s.regs PCA9685Driver.Registers.MODE_1 ||| (1 <<< PCA9685Driver.Mode1.SLEEP)))
      = Except.ok
      (write_byte_state
        (write_byte_state (read_byte_state s PCA9685Driver.Registers.MODE_1)
          PCA9685Driver.Registers.MODE_1
          (s.regs PCA9685Driver.Registers.MODE_1 ||| (1 <<< PCA9685Driver.Mode1.SLEEP)))
        PCA9685Driver.Registers.PRE_SCALE (PCA9685Driver.calc_pre_scale f).toNat) :=
    write_ok _ _ _ hpre.1 hpre.2
  -- the MODE_1 byte seen by wake
  have hseen : (write_byte_state
      (write_byte_state (read_byte_state s PCA9685Driver.Registers.MODE_1)
        PCA9685Driver.Registers.MODE_1
        (s.regs PCA9685Driver.Registers.MODE_1 ||| (1 <<< PCA9685Driver.Mode1.SLEEP)))
      PCA9685Driver.Registers.PRE_SCALE
        (PCA9685Driver.calc_pre_scale f).toNat).regs PCA9685Driver.Registers.MODE_1
      = s.regs PCA9685Driver.Registers.MODE_1 ||| (1 <<< PCA9685Driver.Mode1.SLEEP) := by
    simp only [write_byte_state, read_byte_state]
    rw [Function.update_noteq (by decide), Function.update_same]
  -- wake succeeds
  have e3 : PCA9685Driver.wake
      (write_byte_state
        (write_byte_state (read_byte_state s PCA9685Driver.Registers.MODE_1)
          PCA9685Driver.Registers.MODE_1
          (s.regs PCA9685Driver.Registers.MODE_1 ||| (1 <<< PCA9685Driver.Mode1.SLEEP)))
        PCA9685Driver.Registers.PRE_SCALE (PCA9685Driver.calc_pre_scale f).toNat)
      = Except.ok
      (write_byte_state
        (read_byte_state
          (write_byte_state
            (write_byte_state (read_byte_state s PCA9685Driver.Registers.MODE_1)
              PCA9685Driver.Registers.MODE_1
              (s.regs PCA9685Driver.Registers.MODE_1 ||| (1 <<< PCA9685Driver.Mode1.SLEEP)))
            PCA9685Driver.Registers.PRE_SCALE (PCA9685Driver.calc_pre_scale f).toNat)
          PCA9685Driver.Registers.MODE_1)
        PCA9685Driver.Registers.MODE_1
        ((s.regs PCA9685Driver.Registers.MODE_1 ||| (1 <<< PCA9685Driver.Mode1.SLEEP)) &&&
          (255 - (1 <<< PCA9685Driver.Mode1.SLEEP)))) := by
    unfold PCA9685Driver.wake PCA9685Driver.mode_1 PCA9685Driver.read
    dsimp only
    rw [hseen]
    rw [write_ok _ _ _ (by positivity)
      (by exact_mod_cast le_trans Nat.and_le_right (by norm_num))]
    simp [read_byte_state]
  have emain : PCA9685Driver.set_pwm_frequency f s = Except.ok
      (write_byte_state
        (read_byte_state
          (write_byte_state
            (write_byte_state (read_byte_state s PCA9685Driver.Registers.MODE_1)
              PCA9685Driver.Registers.MODE_1
              (s.regs PCA9685Driver.Registers.MODE_1 ||| (1 <<< PCA9685Driver.Mode1.SLEEP)))
            PCA9685Driver.Registers.PRE_SCALE (PCA9685Driver.calc_pre_scale f).toNat)
          PCA9685Driver.Registers.MODE_1)
        PCA9685Driver.Registers.MODE_1
        ((s.regs PCA9685Driver.Registers.MODE_1 ||| (1 <<< PCA9685Driver.Mode1.SLEEP)) &&&
          (255 - (1 <<< PCA9685Driver.Mode1.SLEEP)))) := by
    unfold PCA9685Driver.set_pwm_frequency
    rw [hcheck]
    dsimp only
    rw [e1]
    dsimp only
    rw [e2]
    dsimp only
    exact e3
  refine ⟨_, emain, ?_, ?_, ?_⟩
  · simp [write_byte_state, read_byte_state, List.append_assoc]
  · simp only [write_byte_state, read_byte_state, Function.update_same]
    exact (mode1_or_and_bits _ hm).1
  · intro i hi
    simp only [write_byte_state, read_byte_state, Function.update_same]
    exact (mode1_or_and_bits _ hm).2 i hi

/-- C7 witness: setting 200 Hz on a fresh bus performs exactly the
sleep → write-prescale → wake sequence and leaves the SLEEP bit clear. -/
theorem C7_set_frequency_witness :
    ∃ s', PCA9685Driver.set_pwm_frequency 200 init_bus = Except.ok s' ∧
      s'.trace = init_bus.trace ++
        [BusOp.read PCA9685Driver.Registers.MODE_1,
        BusOp.write PCA9685Driver.Registers.MODE_1
          (init_bus.regs PCA9685Driver.Registers.MODE_1 ||| (1 <<< PCA9685Driver.Mode1.SLEEP)),
        BusOp.write PCA9685Driver.Registers.PRE_SCALE
          (PCA9685Driver.calc_pre_scale 200).toNat,
        BusOp.read PCA9685Driver.Registers.MODE_1,
        BusOp.write PCA9685Driver.Registers.MODE_1
          ((init_bus.regs PCA9685Driver.Registers.MODE_1 ||| (1 <<< PCA9685Driver.Mode1.SLEEP)) &&&
            (255 - (1 <<< PCA9685Driver.Mode1.SLEEP)))] ∧
      (s'.regs PCA9685Driver.Registers.MODE_1).testBit PCA9685Driver.Mode1.SLEEP = false ∧
      ∀ i, i ≠ PCA9685Driver.Mode1.SLEEP →
        (s'.regs PCA9685Driver.Registers.MODE_1).testBit i
          = (init_bus.regs PCA9685Driver.Registers.MODE_1).testBit i :=
  C7_set_frequency_sleep_write_wake init_bus 200 (by norm_num) (by norm_num) (by norm_num [init_bus])

/-- C4 (amended): with `minimum = normalize_lower = mn` and
`maximum = normalize_upper = mx`, `mn < mx` and `invert = false`, value `mn`
maps to PWM 0 (bytes 0, 0) and value `mx` maps to PWM 4095 (bytes 255, 15),
for every such `mn < mx`; with `invert = true` the two endpoints are swapped
when `mn = 0`.  (For `mn ≠ 0` the inverted map computes
`(mx - value) - mn`, which does not swap the endpoints — see the
counterexample.) -/
theorem C4_normalize_endpoints :
    ∀ (mn mx : ℚ) (pin : ℤ) (s : BusState), mn < mx → 0 ≤ pin → pin ≤ 15 →
      run_trace (async_set_native_value (c4_number_config mn mx false pin) mn s)
        = s.trace ++ [BusOp.write (PCA9685Driver.calc_led_register pin) 0,
            BusOp.write (PCA9685Driver.calc_led_register pin + 1) 0] ∧
      run_trace (async_set_native_value (c4_number_config mn mx false pin) mx s)
        = s.trace ++ [BusOp.write (PCA9685Driver.calc_led_register pin) 255,
            BusOp.write (PCA9685Driver.calc_led_register pin + 1) 15] ∧
      (mn = 0 →
        run_trace (async_set_native_value (c4_number_config mn mx true pin) mn s)
          = s.trace ++ [BusOp.write (PCA9685Driver.calc_led_register pin) 255,
              BusOp.write (PCA9685Driver.calc_led_register pin + 1) 15] ∧
        run_trace (async_set_native_value (c4_number_config mn mx true pin) mx s)
          = s.trace ++ [BusOp.write (PCA9685Driver.calc_led_register pin) 0,
              BusOp.write (PCA9685Driver.calc_led_register pin + 1) 0]) := by
  intro mn mx pin s h h0 h15
  have hne : mx - mn ≠ 0 := sub_ne_zero.mpr h.ne'
  have hrangeF : ¬((c4_number_config mn mx false pin).normalize_upper -
      (c4_number_config mn mx false pin).normalize_lower = 0) := hne
  have hrangeT : ¬((c4_number_config mn mx true pin).normalize_upper -
      (c4_number_config mn mx true pin).normalize_lower = 0) := hne
  have hlow : scaled_pwm_value (c4_number_config mn mx false pin) mn = 0 := by
    simp only [scaled_pwm_value, c4_number_config]
    rw [max_self, min_eq_left h.le]
    simp [sub_self, round_half_even_zero]
  have hhigh : scaled_pwm_value (c4_number_config mn mx false pin) mx = 4095 := by
    simp only [scaled_pwm_value, c4_number_config]
    rw [max_eq_left h.le, min_self]
    simp only [Bool.false_eq_true, if_false]
    rw [div_self hne, one_mul, round_half_even_intCast]
    decide
  refine ⟨?_, ?_, ?_⟩
  · rw [async_set_native_value_ok _ _ _ hrangeF h0 h15]
    simp only [c4_number_config] at hlow ⊢
    simp [run_trace, write_byte_state, hlow, List.append_assoc,
      value_low_zero, value_high_zero]
  · rw [async_set_native_value_ok _ _ _ hrangeF h0 h15]
    simp only [c4_number_config] at hhigh ⊢
    simp [run_trace, write_byte_state, hhigh, List.append_assoc,
      value_low_4095, value_high_4095]
  · intro hmn0
    subst hmn0
    have hTlow : scaled_pwm_value (c4_number_config 0 mx true pin) 0 = 4095 := by
      simp only [scaled_pwm_value, c4_number_config]
      rw [max_self, min_eq_left h.le]
      simp only [if_true, sub_zero]
      rw [div_self h.ne', one_mul, round_half_even_intCast]
      decide
    have hThigh : scaled_pwm_value (c4_number_config 0 mx true pin) mx = 0 := by
      simp only [scaled_pwm_value, c4_number_config]
      rw [max_eq_left h.le, min_self]
      simp [sub_self, round_half_even_zero]
    constructor
    · rw [async_set_native_value_ok _ _ _ hrangeT h0 h15]
      simp only [c4_number_config] at hTlow ⊢
      simp [run_trace, write_byte_state, hTlow, List.append_assoc,
        value_low_4095, value_high_4095]
    · rw [async_set_native_value_ok _ _ _ hrangeT h0 h15]
      simp only [c4_number_config] at hThigh ⊢
      simp [run_trace, write_byte_state, hThigh, List.append_assoc,
        value_low_zero, value_high_zero]

/-- C4 witness: with `mn = 0`, `mx = 100`, pin 0 on a fresh bus, the
non-inverted endpoints map to PWM 0 and 4095 and the inverted endpoints are
swapped. -/
theorem C4_normalize_endpoints_witness :
    run_trace (async_set_native_value (c4_number_config 0 100 false 0) 0 init_bus)
      = init_bus.trace ++ [BusOp.write (PCA9685Driver.calc_led_register 0) 0,
          BusOp.write (PCA9685Driver.calc_led_register 0 + 1) 0] ∧
    run_trace (async_set_native_value (c4_number_config 0 100 false 0) 100 init_bus)
      = init_bus.trace ++ [BusOp.write (PCA9685Driver.calc_led_register 0) 255,
          BusOp.write (PCA9685Driver.calc_led_register 0 + 1) 15] ∧
    ((0 : ℚ) = 0 →
      run_trace (async_set_native_value (c4_number_config 0 100 true 0) 0 init_bus)
        = init_bus.trace ++ [BusOp.write (PCA9685Driver.calc_led_register 0) 255,
            BusOp.write (PCA9685Driver.calc_led_register 0 + 1) 15] ∧
      run_trace (async_set_native_value (c4_number_config 0 100 true 0) 100 init_bus)
        = init_bus.trace ++ [BusOp.write (PCA9685Driver.calc_led_register 0) 0,
            BusOp.write (PCA9685Driver.calc_led_register 0 + 1) 0]) :=
  C4_normalize_endpoints 0 100 0 init_bus (by norm_num) (by norm_num) (by norm_num)

/-- C4 counterexample: with `mn = 10`, `mx = 20` and `invert = true`, the
claim says value `mn` maps to PWM 4095 (bytes 255, 15); the code computes
`(20 - 10) - 10 = 0` and writes PWM 0 (bytes 0, 0) instead. -/
theorem C4_invert_endpoint_fails :
    run_trace (async_set_native_value (c4_number_config 10 20 true 0) 10 init_bus)
      = [BusOp.write (PCA9685Driver.calc_led_register 0) 0,
        BusOp.write (PCA9685Driver.calc_led_register 0 + 1) 0] ∧
    run_trace (async_set_native_value (c4_number_config 10 20 true 0) 10 init_bus)
      ≠ [BusOp.write (PCA9685Driver.calc_led_register 0) 255,
        BusOp.write (PCA9685Driver.calc_led_register 0 + 1) 15] := by
  have hne : (20 : ℚ) - 10 ≠ 0 := by norm_num
  have hscaled : scaled_pwm_value (c4_number_config 10 20 true 0) 10 = 0 := by
    simp only [scaled_pwm_value, c4_number_config]
    rw [show max (10 : ℚ) 10 = 10 from max_self 10, min_eq_left (by norm_num : (10:ℚ) ≤ 20)]
    simp only [if_true]
    rw [show (20 : ℚ) - 10 - 10 = 0 by norm_num]
    simp [round_half_even_zero]
  have h := async_set_native_value_ok (c4_number_config 10 20 true 0) 10 init_bus hne
    (by norm_num [c4_number_config]) (by norm_num [c4_number_config])
  rw [h]
  simp only [c4_number_config] at hscaled ⊢
  constructor
  · simp [run_trace, write_byte_state, hscaled, init_bus,
      value_low_zero, value_high_zero]
  · simp [run_trace, write_byte_state, hscaled, init_bus,
      value_low_zero, value_high_zero]

/-- C5: the number subentry schema accepts a configuration with
`normalize_upper == normalize_lower` (it checks nothing about the pair), and
setting a value on such an output reaches the division by zero in
`async_set_native_value` at runtime — there is no configuration-time
rejection. -/
theorem C5_degenerate_bounds_crash :
    number_schema_accepts degenerate_number_config = true ∧
    async_set_native_value degenerate_number_config 30 init_bus
      = Except.error "ZeroDivisionError" := by
  constructor
  · simp only [number_schema_accepts, degenerate_number_config]
    norm_num
  · simp only [async_set_native_value, degenerate_number_config]
    norm_num

/-- C9: on a step-callback tick strictly after the transition's end time, the
exact stored end brightness is written — for a transition started toward
`brightness` this is exactly the requested target, and for a multi-channel
output every channel's end value is written in that same tick — and then the
periodic callback is cancelled. -/
theorem C9_transition_final_tick :
    ∀ (st : SimpleLedTransition) (rst : RgbwLedTransition) (brightness : ℤ)
      (now duration tick : ℚ) (current : ℤ),
      (st.transition_lister = true → tick > st.transition_end →
        step_transition st tick
          = Except.ok ([(st.pin, st.transition_end_brightness)], true)) ∧
      (current ≠ brightness → tick > now + duration →
        step_transition (start_transition st brightness now duration current).1 tick
          = Except.ok ([(st.pin, brightness)], true)) ∧
      (rst.transition_lister = true → tick > rst.transition_end →
        rgbw_step_transition rst tick
          = Except.ok (rst.pins.zip rst.transition_end_brightness, true)) := by
  intro st rst brightness now duration tick current
  refine ⟨?_, ?_, ?_⟩
  · intro hl htick
    unfold step_transition
    rw [if_pos htick, hl]
  · intro hcur htick
    unfold start_transition
    dsimp only
    rw [if_pos hcur]
    unfold step_transition
    dsimp only
    rw [if_pos htick]
  · intro hl htick
    unfold rgbw_step_transition
    rw [if_pos htick, hl]

/-- C9 witness: at tick time 2, past end time 1, the stored end values are
written and the callback is cancelled, for a single LED, for a freshly
started transition toward 100, and for an RGB output. -/
theorem C9_transition_final_tick_witness :
    step_transition sample_simple_transition 2
      = Except.ok ([(sample_simple_transition.pin,
          sample_simple_transition.transition_end_brightness)], true) ∧
    step_transition (start_transition sample_simple_transition 100 0 1 0).1 2
      = Except.ok ([(sample_simple_transition.pin, 100)], true) ∧
    rgbw_step_transition sample_rgbw_transition 2
      = Except.ok (sample_rgbw_transition.pins.zip
          sample_rgbw_transition.transition_end_brightness, true) := by
  obtain ⟨h1, h2, h3⟩ :=
    C9_transition_final_tick sample_simple_transition sample_rgbw_transition 100 0 1 2 0
  exact ⟨h1 rfl (by norm_num [sample_simple_transition]),
    h2 (by norm_num) (by norm_num),
    h3 rfl (by norm_num [sample_rgbw_transition])⟩

/-- C10: for every input value and every configuration with non-degenerate
normalization bounds and a valid pin, `async_set_native_value` clamps before
use: the PWM value handed to `set_pwm` lies in `[0, 4095]` (so the driver's
`led_value` range check accepts it), and the stored native value is the input
clamped to `[minimum, maximum]`. -/
theorem C10_number_value_clamped :
    ∀ (c : NumberConfig) (v : ℚ) (s : BusState),
      c.normalize_upper ≠ c.normalize_lower → 0 ≤ c.pin → c.pin ≤ 15 →
      (0 ≤ scaled_pwm_value c v ∧ scaled_pwm_value c v ≤ 4095) ∧
      PCA9685Driver.check_range "led_value" (scaled_pwm_value c v) = none ∧
      ∃ s1, async_set_native_value c v s
          = Except.ok (min (max v c.minimum) c.maximum, s1) ∧
        s1.trace = s.trace ++
          [BusOp.write (PCA9685Driver.calc_led_register c.pin)
            (PCA9685Driver.value_low (scaled_pwm_value c v).toNat),
          BusOp.write (PCA9685Driver.calc_led_register c.pin + 1)
            (PCA9685Driver.value_high (scaled_pwm_value c v).toNat)] := by
  intro c v s hne h0 h15
  have hrange : ¬(c.normalize_upper - c.normalize_lower = 0) := sub_ne_zero.mpr hne
  refine ⟨⟨scaled_pwm_value_nonneg c v, scaled_pwm_value_le c v⟩, ?_, ?_⟩
  · exact check_range_none _ 0 4095 _ rfl (scaled_pwm_value_nonneg c v)
      (scaled_pwm_value_le c v)
  · refine ⟨_, async_set_native_value_ok c v s hrange h0 h15, ?_⟩
    simp [write_byte_state, List.append_assoc]

/-- C10 witness: input 12345, far above the configured maximum 100, is
clamped; the PWM value stays in `[0, 4095]` and the stored native value is
`min (max 12345 0) 100`. -/
theorem C10_number_value_clamped_witness :
    (0 ≤ scaled_pwm_value sample_number_config 12345 ∧
      scaled_pwm_value sample_number_config 12345 ≤ 4095) ∧
    PCA9685Driver.check_range "led_value" (scaled_pwm_value sample_number_config 12345)
      = none ∧
    ∃ s1, async_set_native_value sample_number_config 12345 init_bus
        = Except.ok (min (max 12345 sample_number_config.minimum)
            sample_number_config.maximum, s1) ∧
      s1.trace = init_bus.trace ++
        [BusOp.write (PCA9685Driver.calc_led_register sample_number_config.pin)
          (PCA9685Driver.value_low (scaled_pwm_value sample_number_config 12345).toNat),
        BusOp.write (PCA9685Driver.calc_led_register sample_number_config.pin + 1)
          (PCA9685Driver.value_high (scaled_pwm_value sample_number_config 12345).toNat)] :=
  C10_number_value_clamped sample_number_config 12345 init_bus
    (by norm_num [sample_number_config]) (by norm_num [sample_number_config])
    (by norm_num [sample_number_config])
